import Mathlib

/-!
# Peripheral info table of the SBSA validation layer

A shallow embedding of `val/src/avs_peripherals.c`:

* `val_peripheral_get_entry_index`  (lines 67-83), the index resolver;
* `val_peripheral_get_info`         (lines 94-157), the query dispatcher;
* `val_peripheral_create_info_table` and `val_peripheral_free_info_table`
  (lines 176-201), the lifecycle of the global `g_peripheral_info_table`;
* `val_peripheral_execute_tests`    (lines 33-53), the test sequencer.

Conventions of the embedding.

* C unsigned integers are natural numbers; the only arithmetic that can wrap
  is the `i++` of the resolver, written `(i + 1) % 2 ^ 32`.
* A C function that reads memory returns an `Outcome`: `ret v` when it
  returns `v`, `fault` when it reads through a null or released pointer or
  outside the row array (undefined behaviour in C), `timeout` when the loop
  has not ended within the given number of iterations (`fuel`).
* A local variable that is read before it is written has an indeterminate
  value in C; that value is an explicit argument of the embedded function.
-/

namespace SbsaAcs

set_option linter.unusedVariables false

/-! ## Results of a run -/

/-- Result of running a C function that reads memory and may loop. -/
inductive Outcome (α : Type) where
  | ret (v : α)
  | fault
  | timeout
  deriving DecidableEq, Repr

/-- Sequencing of two computations: the second runs on the value of the
first, a fault or a timeout of the first ends the run. -/
def Outcome.bind {α β : Type} (x : Outcome α) (f : α → Outcome β) : Outcome β :=
  match x with
  | .ret v => f v
  | .fault => .fault
  | .timeout => .timeout

/-! ## Data model (declared in `include/sbsa_avs_peripherals.h`) -/

/-- Modelled from the spec: the header `PERIPHERAL_INFO_HDR` of the table is
declared in include/sbsa_avs_peripherals.h, which is absent; the fields are
the three counts the dispatcher reads (`header.num_usb`, `header.num_sata`,
`header.num_uart`). -/
structure PERIPHERAL_INFO_HDR where
  num_usb : Nat
  num_sata : Nat
  num_uart : Nat
  deriving DecidableEq, Repr

/-- Modelled from the spec: one row `PERIPHERAL_INFO_BLOCK` of the table,
declared in the absent include/sbsa_avs_peripherals.h; the fields are the
ones the resolver and the dispatcher read (`type`, `base0`, `base1`,
`flags`, `irq`, `bdf`). -/
structure PERIPHERAL_INFO_BLOCK where
  type : Nat
  bdf : Nat
  base0 : Nat
  base1 : Nat
  irq : Nat
  flags : Nat
  deriving DecidableEq, Repr

/-- Modelled from the spec: the table `PERIPHERAL_INFO_TABLE`, a header
followed by the row array `info[]`. The list holds every row slot of the
memory region handed to the registry; a read at an index outside it is a
read outside that region. -/
structure PERIPHERAL_INFO_TABLE where
  header : PERIPHERAL_INFO_HDR
  info : List PERIPHERAL_INFO_BLOCK
  deriving DecidableEq, Repr

/-- Modelled from the spec: the query kinds `PERIPHERAL_INFO_e`, declared in
the absent include/sbsa_avs_peripherals.h. The fourteen named constructors
are the case labels of the switch of `val_peripheral_get_info`;
`unrecognized v` stands for any other value `v` of the enumeration, which
the switch sends to `default`. -/
inductive PERIPHERAL_INFO_e where
  | NUM_USB
  | NUM_SATA
  | NUM_UART
  | USB_BASE0
  | USB_FLAGS
  | USB_GSIV
  | USB_BDF
  | SATA_BASE0
  | SATA_BASE1
  | SATA_FLAGS
  | SATA_BDF
  | UART_BASE0
  | UART_GSIV
  | UART_FLAGS
  | unrecognized (v : Nat)
  deriving DecidableEq, Repr

/-- The numeric values of `PERIPHERAL_TYPE_USB`, `PERIPHERAL_TYPE_SATA` and
`PERIPHERAL_TYPE_UART`. The enumeration is declared in the absent
include/sbsa_avs_peripherals.h, so the three values are parameters. -/
structure PeripheralTypes where
  PERIPHERAL_TYPE_USB : Nat
  PERIPHERAL_TYPE_SATA : Nat
  PERIPHERAL_TYPE_UART : Nat
  deriving DecidableEq, Repr

/-- The state the file keeps: the global pointer `g_peripheral_info_table`
(line 22) together with what it points to (`none` is the null pointer), and
whether that memory has been handed back to `pal_mem_free`. -/
structure ValState where
  g_peripheral_info_table : Option PERIPHERAL_INFO_TABLE
  released : Bool
  deriving DecidableEq, Repr

/-- The state at program start: a C global without initialiser is null. -/
def ValState.initial : ValState :=
  { g_peripheral_info_table := none, released := false }

/-- Dereference of `g_peripheral_info_table`: the table when the pointer is
non-null and its memory has not been released, a fault otherwise. -/
def ValState.deref (s : ValState) : Outcome PERIPHERAL_INFO_TABLE :=
  match s.g_peripheral_info_table with
  | none => .fault
  | some tbl => if s.released then .fault else .ret tbl

/-! ## The index resolver (lines 67-83) -/

/-- The `while` loop of `val_peripheral_get_entry_index` (lines 72-81), run
for at most `fuel` iterations from the cursor `i` with `inst` instances
still to skip; falling out of the loop is the `return 0xFF` of line 82. -/
def entry_index_loop (info : List PERIPHERAL_INFO_BLOCK) (type : Nat) :
    Nat → Nat → Nat → Outcome Nat
  | 0, _, _ => .timeout
  | fuel + 1, i, inst =>
    match info[i]? with
    | none => .fault
    | some blk =>
      if blk.type ≠ 0xFF then
        if blk.type = type then
          if inst = 0 then .ret i
          else entry_index_loop info type fuel ((i + 1) % 2 ^ 32) (inst - 1)
        else entry_index_loop info type fuel ((i + 1) % 2 ^ 32) inst
      else .ret 0xFF

/-- The function `val_peripheral_get_entry_index(type, instance)`. The local
`i` is declared without initialiser (line 70) and read by the loop
condition (line 72), so the value it holds at entry is the argument `i`. -/
def val_peripheral_get_entry_index (s : ValState) (fuel : Nat) (i : Nat)
    (type inst : Nat) : Outcome Nat :=
  s.deref.bind fun tbl => entry_index_loop tbl.info type fuel i inst

/-! ## The query dispatcher (lines 94-157) -/

/-- The read `g_peripheral_info_table->info[i].field` of a row field. -/
def read_info (s : ValState) (i : Nat) (field : PERIPHERAL_INFO_BLOCK → Nat) :
    Outcome Nat :=
  s.deref.bind fun tbl =>
    match tbl.info[i]? with
    | none => .fault
    | some blk => .ret (field blk)

/-- One per-peripheral case of the switch:
`i = val_peripheral_get_entry_index(type, instance); if (i != 0xFF) return
info[i].field;` and, as the case has no `break`, control then falls into
`next`, the code of the following case label. `cursor` is the value the
resolver finds in its uninitialised local on this call. -/
def info_case (s : ValState) (fuel cursor : Nat) (type inst : Nat)
    (field : PERIPHERAL_INFO_BLOCK → Nat) (next : Outcome Nat) : Outcome Nat :=
  (val_peripheral_get_entry_index s fuel cursor type inst).bind fun i =>
    if i ≠ 0xFF then read_info s i field else next

/-- Code from `case UART_FLAGS:` (line 149) to the end of the function. -/
def from_UART_FLAGS (ty : PeripheralTypes) (s : ValState) (fuel : Nat)
    (junk : Nat → Nat) (inst : Nat) : Outcome Nat :=
  info_case s fuel (junk 10) ty.PERIPHERAL_TYPE_UART inst (·.flags) (.ret 0)

/-- Code from `case UART_GSIV:` (line 145) on. -/
def from_UART_GSIV (ty : PeripheralTypes) (s : ValState) (fuel : Nat)
    (junk : Nat → Nat) (inst : Nat) : Outcome Nat :=
  info_case s fuel (junk 9) ty.PERIPHERAL_TYPE_UART inst (·.irq)
    (from_UART_FLAGS ty s fuel junk inst)

/-- Code from `case UART_BASE0:` (line 141) on. -/
def from_UART_BASE0 (ty : PeripheralTypes) (s : ValState) (fuel : Nat)
    (junk : Nat → Nat) (inst : Nat) : Outcome Nat :=
  info_case s fuel (junk 8) ty.PERIPHERAL_TYPE_UART inst (·.base0)
    (from_UART_GSIV ty s fuel junk inst)

/-- Code from `case SATA_BDF:` (line 137) on; the resolver is called with
`PERIPHERAL_TYPE_USB` (line 138). -/
def from_SATA_BDF (ty : PeripheralTypes) (s : ValState) (fuel : Nat)
    (junk : Nat → Nat) (inst : Nat) : Outcome Nat :=
  info_case s fuel (junk 7) ty.PERIPHERAL_TYPE_USB inst (·.bdf)
    (from_UART_BASE0 ty s fuel junk inst)

/-- Code from `case SATA_FLAGS:` (line 133) on. -/
def from_SATA_FLAGS (ty : PeripheralTypes) (s : ValState) (fuel : Nat)
    (junk : Nat → Nat) (inst : Nat) : Outcome Nat :=
  info_case s fuel (junk 6) ty.PERIPHERAL_TYPE_SATA inst (·.flags)
    (from_SATA_BDF ty s fuel junk inst)

/-- Code from `case SATA_BASE1:` (line 129) on. -/
def from_SATA_BASE1 (ty : PeripheralTypes) (s : ValState) (fuel : Nat)
    (junk : Nat → Nat) (inst : Nat) : Outcome Nat :=
  info_case s fuel (junk 5) ty.PERIPHERAL_TYPE_SATA inst (·.base1)
    (from_SATA_FLAGS ty s fuel junk inst)

/-- Code from `case SATA_BASE0:` (line 125) on. -/
def from_SATA_BASE0 (ty : PeripheralTypes) (s : ValState) (fuel : Nat)
    (junk : Nat → Nat) (inst : Nat) : Outcome Nat :=
  info_case s fuel (junk 4) ty.PERIPHERAL_TYPE_SATA inst (·.base0)
    (from_SATA_BASE1 ty s fuel junk inst)

/-- Code from `case USB_BDF:` (line 121) on. -/
def from_USB_BDF (ty : PeripheralTypes) (s : ValState) (fuel : Nat)
    (junk : Nat → Nat) (inst : Nat) : Outcome Nat :=
  info_case s fuel (junk 3) ty.PERIPHERAL_TYPE_USB inst (·.bdf)
    (from_SATA_BASE0 ty s fuel junk inst)

/-- Code from `case USB_GSIV:` (line 117) on. -/
def from_USB_GSIV (ty : PeripheralTypes) (s : ValState) (fuel : Nat)
    (junk : Nat → Nat) (inst : Nat) : Outcome Nat :=
  info_case s fuel (junk 2) ty.PERIPHERAL_TYPE_USB inst (·.irq)
    (from_USB_BDF ty s fuel junk inst)

/-- Code from `case USB_FLAGS:` (line 113) on. -/
def from_USB_FLAGS (ty : PeripheralTypes) (s : ValState) (fuel : Nat)
    (junk : Nat → Nat) (inst : Nat) : Outcome Nat :=
  info_case s fuel (junk 1) ty.PERIPHERAL_TYPE_USB inst (·.flags)
    (from_USB_GSIV ty s fuel junk inst)

/-- Code from `case USB_BASE0:` (line 109) on. -/
def from_USB_BASE0 (ty : PeripheralTypes) (s : ValState) (fuel : Nat)
    (junk : Nat → Nat) (inst : Nat) : Outcome Nat :=
  info_case s fuel (junk 0) ty.PERIPHERAL_TYPE_USB inst (·.base0)
    (from_USB_FLAGS ty s fuel junk inst)

/-- The function `val_peripheral_get_info(info_type, instance)`.
`fuel` bounds each scan of the resolver; `junk n` is the value the
resolver's uninitialised local holds on the call made by the `n`-th
per-peripheral case (0 for `USB_BASE0` up to 10 for `UART_FLAGS`). -/
def val_peripheral_get_info (ty : PeripheralTypes) (s : ValState) (fuel : Nat)
    (junk : Nat → Nat) (info_type : PERIPHERAL_INFO_e) (inst : Nat) : Outcome Nat :=
  match s.g_peripheral_info_table with
  | none => .ret 0
  | some _ =>
    match info_type with
    | .NUM_USB => s.deref.bind fun tbl => .ret tbl.header.num_usb
    | .NUM_SATA => s.deref.bind fun tbl => .ret tbl.header.num_sata
    | .NUM_UART => s.deref.bind fun tbl => .ret tbl.header.num_uart
    | .USB_BASE0 => from_USB_BASE0 ty s fuel junk inst
    | .USB_FLAGS => from_USB_FLAGS ty s fuel junk inst
    | .USB_GSIV => from_USB_GSIV ty s fuel junk inst
    | .USB_BDF => from_USB_BDF ty s fuel junk inst
    | .SATA_BASE0 => from_SATA_BASE0 ty s fuel junk inst
    | .SATA_BASE1 => from_SATA_BASE1 ty s fuel junk inst
    | .SATA_FLAGS => from_SATA_FLAGS ty s fuel junk inst
    | .SATA_BDF => from_SATA_BDF ty s fuel junk inst
    | .UART_BASE0 => from_UART_BASE0 ty s fuel junk inst
    | .UART_GSIV => from_UART_GSIV ty s fuel junk inst
    | .UART_FLAGS => from_UART_FLAGS ty s fuel junk inst
    | .unrecognized _ => .ret 0

/-! ## Lifecycle (lines 176-201) -/

/-- The function `val_peripheral_create_info_table(peripheral_info_table)`.
The argument is the caller's memory as `pal_peripheral_create_info_table`
(external, absent) leaves it, `none` for a null pointer. The result is the
new state and the three values handed to `val_print` (lines 184-189). -/
def val_peripheral_create_info_table (ty : PeripheralTypes)
    (peripheral_info_table : Option PERIPHERAL_INFO_TABLE) :
    ValState × List (Outcome Nat) :=
  let s : ValState := { g_peripheral_info_table := peripheral_info_table, released := false }
  (s, [val_peripheral_get_info ty s 0 (fun _ => 0) .NUM_USB 0,
       val_peripheral_get_info ty s 0 (fun _ => 0) .NUM_SATA 0,
       val_peripheral_get_info ty s 0 (fun _ => 0) .NUM_UART 0])

/-- The constants of include/sbsa_avs_common.h and include/sbsa_avs_val.h
that the sequencer uses. Both headers are absent, so the values are
parameters. -/
structure AvsConstants where
  AVS_PER_TEST_NUM_BASE : Nat
  AVS_STATUS_PASS : Nat
  AVS_STATUS_FAIL : Nat
  AVS_STATUS_SKIP : Nat
  deriving DecidableEq, Repr

/-- The four compliance checks called by the sequencer. -/
inductive CheckId where
  | d001_entry
  | d002_entry
  | d003_entry
  | m001_entry
  deriving DecidableEq, Repr

/-- The two messages the sequencer prints. -/
inductive Notice where
  | skipping_all_peripheral_tests
  | peripheral_tests_failed
  deriving DecidableEq, Repr

/-- What one run of the sequencer does, in order: calls of a check with its
argument, and calls of `val_print` with the message and its data word. -/
inductive Event where
  | check (id : CheckId) (num_pe : Nat)
  | print (msg : Notice) (data : Nat)
  deriving DecidableEq, Repr

/-- The checks are external to the file: each takes `num_pe` and the state
of the rest of the system (`W`) and gives back its 32-bit status and the
state it leaves. -/
structure Checks (W : Type) where
  d001_entry : Nat → W → Nat × W
  d002_entry : Nat → W → Nat × W
  d003_entry : Nat → W → Nat × W
  m001_entry : Nat → W → Nat × W

/-- Result of a run of the sequencer: the returned status, the events in
the order they happened, and the state the checks left. -/
structure RunResult (W : Type) where
  status : Nat
  events : List Event
  world : W

/-- The function `val_peripheral_execute_tests(level, num_pe)`;
`g_skip_test_num` is the external global read at line 39. -/
def val_peripheral_execute_tests {W : Type} (c : AvsConstants) (chk : Checks W)
    (g_skip_test_num : Nat) (level num_pe : Nat) (w : W) : RunResult W :=
  if g_skip_test_num = c.AVS_PER_TEST_NUM_BASE then
    { status := c.AVS_STATUS_SKIP,
      events := [.print .skipping_all_peripheral_tests 0],
      world := w }
  else
    let r1 := chk.d001_entry num_pe w
    let status := r1.1
    let r2 := chk.d002_entry num_pe r1.2
    let status := status ||| r2.1
    let r3 := chk.d003_entry num_pe r2.2
    let status := status ||| r3.1
    let r4 := chk.m001_entry num_pe r3.2
    let status := status ||| r4.1
    let calls := [Event.check .d001_entry num_pe, .check .d002_entry num_pe,
                  .check .d003_entry num_pe, .check .m001_entry num_pe]
    if status = c.AVS_STATUS_FAIL then
      { status := status,
        events := calls ++ [.print .peripheral_tests_failed status],
        world := r4.2 }
    else
      { status := status, events := calls, world := r4.2 }

/-- The checks invoked during a run, in order, with their arguments. -/
def check_invocations (events : List Event) : List (CheckId × Nat) :=
  events.filterMap fun e =>
    match e with
    | .check id n => some (id, n)
    | .print _ _ => none

/-! ## Vocabulary of the specification -/

/-- The type tag of the row at index `j`, when the table has such a row. -/
def type_at (info : List PERIPHERAL_INFO_BLOCK) (j : Nat) : Option Nat :=
  info[j]?.map (·.type)

/-- The row sequence is terminated at index `n`: row `n` is the first row
whose type is the reserved value 0xFF. -/
def TerminatedAt (info : List PERIPHERAL_INFO_BLOCK) (n : Nat) : Prop :=
  type_at info n = some 0xFF ∧ ∀ j, j < n → type_at info j ≠ some 0xFF

instance (info : List PERIPHERAL_INFO_BLOCK) (n : Nat) : Decidable (TerminatedAt info n) := by
  unfold TerminatedAt
  exact inferInstance

/-- The indices, in table order, of the rows of type `t` among the first
`n` rows; with `n` the index of the terminator these are the instances
0, 1, 2, ... of type `t`. -/
def instances_of (info : List PERIPHERAL_INFO_BLOCK) (t n : Nat) : List Nat :=
  (List.range n).filter fun j => type_at info j = some t

/-- The number of rows of type `t` that precede row `n`. -/
def count_of (info : List PERIPHERAL_INFO_BLOCK) (t n : Nat) : Nat :=
  (instances_of info t n).length

/-- The state after a successful creation: the pointer refers to `tbl` and
the memory is live. -/
def created (tbl : PERIPHERAL_INFO_TABLE) : ValState :=
  { g_peripheral_info_table := some tbl, released := false }

/-- The cursor value of a run in which every scan of the resolver happens
to start at row 0. -/
def zero_cursor : Nat → Nat := fun _ => 0

/-- The peripheral type that owns a per-peripheral query kind, after the
name of the kind: `USB_*` belongs to USB, `SATA_*` to SATA, `UART_*` to
UART; the aggregate counts and unrecognized kinds have no owner. -/
def owner_type (ty : PeripheralTypes) : PERIPHERAL_INFO_e → Option Nat
  | .USB_BASE0 => some ty.PERIPHERAL_TYPE_USB
  | .USB_FLAGS => some ty.PERIPHERAL_TYPE_USB
  | .USB_GSIV => some ty.PERIPHERAL_TYPE_USB
  | .USB_BDF => some ty.PERIPHERAL_TYPE_USB
  | .SATA_BASE0 => some ty.PERIPHERAL_TYPE_SATA
  | .SATA_BASE1 => some ty.PERIPHERAL_TYPE_SATA
  | .SATA_FLAGS => some ty.PERIPHERAL_TYPE_SATA
  | .SATA_BDF => some ty.PERIPHERAL_TYPE_SATA
  | .UART_BASE0 => some ty.PERIPHERAL_TYPE_UART
  | .UART_GSIV => some ty.PERIPHERAL_TYPE_UART
  | .UART_FLAGS => some ty.PERIPHERAL_TYPE_UART
  | _ => none

/-- The row field a per-peripheral query kind names: `*_BASE0` is `base0`,
`*_BASE1` is `base1`, `*_FLAGS` is `flags`, `*_GSIV` is `irq`, `*_BDF` is
`bdf`. -/
def named_field : PERIPHERAL_INFO_e → Option (PERIPHERAL_INFO_BLOCK → Nat)
  | .USB_BASE0 => some (·.base0)
  | .USB_FLAGS => some (·.flags)
  | .USB_GSIV => some (·.irq)
  | .USB_BDF => some (·.bdf)
  | .SATA_BASE0 => some (·.base0)
  | .SATA_BASE1 => some (·.base1)
  | .SATA_FLAGS => some (·.flags)
  | .SATA_BDF => some (·.bdf)
  | .UART_BASE0 => some (·.base0)
  | .UART_GSIV => some (·.irq)
  | .UART_FLAGS => some (·.flags)
  | _ => none

/-! ## Sample inputs -/

/-- Sample values for the three type tags; any three distinct values other
than 0xFF serve. -/
def sample_types : PeripheralTypes :=
  { PERIPHERAL_TYPE_USB := 0x2000, PERIPHERAL_TYPE_SATA := 0x2001,
    PERIPHERAL_TYPE_UART := 0x2002 }

/-- The terminator row: type 0xFF, every other field zero. -/
def terminator_row : PERIPHERAL_INFO_BLOCK :=
  { type := 0xFF, bdf := 0, base0 := 0, base1 := 0, irq := 0, flags := 0 }

/-- A USB row with base0 = 0x1000, irq = 5 and bdf = 0x200. -/
def usb_row : PERIPHERAL_INFO_BLOCK :=
  { type := 0x2000, bdf := 0x200, base0 := 0x1000, base1 := 0, irq := 5, flags := 1 }

/-- A SATA row with base0 = 0x3000, base1 = 0x3800 and bdf = 0x100. -/
def sata_row : PERIPHERAL_INFO_BLOCK :=
  { type := 0x2001, bdf := 0x100, base0 := 0x3000, base1 := 0x3800, irq := 9, flags := 2 }

/-- A row of a fourth peripheral type, none of USB, SATA, UART. -/
def other_row : PERIPHERAL_INFO_BLOCK :=
  { type := 0x2003, bdf := 0, base0 := 0x9000, base1 := 0, irq := 0, flags := 0 }

/-- Table with one USB row followed by the terminator. -/
def table_one_usb : PERIPHERAL_INFO_TABLE :=
  { header := { num_usb := 1, num_sata := 0, num_uart := 0 },
    info := [usb_row, terminator_row] }

/-- An empty table (the terminator is row 0) in a region whose next row
slot holds the bytes of a USB row left from earlier use. -/
def table_stale_slot : PERIPHERAL_INFO_TABLE :=
  { header := { num_usb := 0, num_sata := 0, num_uart := 0 },
    info := [terminator_row, usb_row] }

/-- Table with one SATA row and no USB row. -/
def table_one_sata : PERIPHERAL_INFO_TABLE :=
  { header := { num_usb := 0, num_sata := 1, num_uart := 0 },
    info := [sata_row, terminator_row] }

/-- Table with one SATA row, then one USB row. -/
def table_sata_usb : PERIPHERAL_INFO_TABLE :=
  { header := { num_usb := 1, num_sata := 1, num_uart := 0 },
    info := [sata_row, usb_row, terminator_row] }

/-- Table whose only USB row is row 255, after 255 rows of another type. -/
def table_usb_at_255 : PERIPHERAL_INFO_TABLE :=
  { header := { num_usb := 1, num_sata := 0, num_uart := 0 },
    info := List.replicate 255 other_row ++ [usb_row, terminator_row] }

/-- Four checks that return fixed statuses and leave the system state (a
count of the checks run so far) incremented. -/
def sample_checks : Checks Nat :=
  { d001_entry := fun _ w => (0x0, w + 1),
    d002_entry := fun _ w => (0x10000000, w + 1),
    d003_entry := fun _ w => (0x0, w + 1),
    m001_entry := fun _ w => (0x4, w + 1) }

/-- Sample values of the sequencer's constants. -/
def sample_constants : AvsConstants :=
  { AVS_PER_TEST_NUM_BASE := 500, AVS_STATUS_PASS := 0x0,
    AVS_STATUS_FAIL := 0x90000000, AVS_STATUS_SKIP := 0x10000000 }

/-- A UART row with base0 = 0x2000 and irq = 7. -/
def uart_row : PERIPHERAL_INFO_BLOCK :=
  { type := 0x2002, bdf := 0, base0 := 0x2000, base1 := 0, irq := 7, flags := 0 }

/-- The USB row of the end-to-end scenario: base0 = 0x1000, irq = 5, the
fields the scenario leaves open are zero. -/
def scenario_usb_row : PERIPHERAL_INFO_BLOCK :=
  { type := 0x2000, bdf := 0, base0 := 0x1000, base1 := 0, irq := 5, flags := 0 }

/-- The table of the end-to-end scenario: header {num_usb = 1, num_sata = 0,
num_uart = 1}, rows [USB, UART, terminator]. -/
def scenario_table : PERIPHERAL_INFO_TABLE :=
  { header := { num_usb := 1, num_sata := 0, num_uart := 1 },
    info := [scenario_usb_row, uart_row, terminator_row] }

/-- The cursor values of a run in which the uninitialised local of the
resolver holds `v` on every call. -/
def cursor_at (v : Nat) : Nat → Nat := fun _ => v

/-- The fourteen query kinds that have a case label in the switch. -/
def recognized_kinds : List PERIPHERAL_INFO_e :=
  [.NUM_USB, .NUM_SATA, .NUM_UART, .USB_BASE0, .USB_FLAGS, .USB_GSIV, .USB_BDF,
   .SATA_BASE0, .SATA_BASE1, .SATA_FLAGS, .SATA_BDF, .UART_BASE0, .UART_GSIV, .UART_FLAGS]

/-- Modelled from the spec: the numeric encodings of `AVS_STATUS_PASS`,
`AVS_STATUS_FAIL` and `AVS_STATUS_SKIP` are macros of the absent
include/sbsa_avs_common.h. The spec says of them that FAIL dominates PASS
and SKIP in the combination under bitwise-OR semantics: OR-ing PASS or SKIP
into FAIL leaves FAIL. -/
def fail_dominates (c : AvsConstants) : Prop :=
  c.AVS_STATUS_PASS ||| c.AVS_STATUS_FAIL = c.AVS_STATUS_FAIL ∧
  c.AVS_STATUS_SKIP ||| c.AVS_STATUS_FAIL = c.AVS_STATUS_FAIL

instance (c : AvsConstants) : Decidable (fail_dominates c) := by
  unfold fail_dominates
  exact inferInstance

/-- A status is one of the three codes PASS, FAIL, SKIP. -/
def is_status_code (c : AvsConstants) (s : Nat) : Prop :=
  s = c.AVS_STATUS_PASS ∨ s = c.AVS_STATUS_FAIL ∨ s = c.AVS_STATUS_SKIP

instance (c : AvsConstants) (s : Nat) : Decidable (is_status_code c s) := by
  unfold is_status_code
  exact inferInstance

/-- Four checks of which the third fails: they return PASS, SKIP, FAIL and
PASS of `sample_constants`. -/
def checks_third_fails : Checks Nat :=
  { d001_entry := fun _ w => (0x0, w + 1),
    d002_entry := fun _ w => (0x10000000, w + 1),
    d003_entry := fun _ w => (0x90000000, w + 1),
    m001_entry := fun _ w => (0x0, w + 1) }

/-! ## Lemmas on the resolver -/

theorem type_at_eq_some {info : List PERIPHERAL_INFO_BLOCK} {j v : Nat} :
    type_at info j = some v ↔ ∃ blk, info[j]? = some blk ∧ blk.type = v := by
  unfold type_at
  cases info[j]? <;> simp

theorem created_eq (ty : PeripheralTypes) (tbl : PERIPHERAL_INFO_TABLE) :
    (val_peripheral_create_info_table ty (some tbl)).1 = created tbl := rfl

theorem deref_created (tbl : PERIPHERAL_INFO_TABLE) : (created tbl).deref = .ret tbl := rfl

/-- The loop started at cursor `i`, at distance `d` from the first
terminator, with more than `d` iterations allowed and no wrap of the
cursor on the way: it returns the `inst`-th index of a row of type `t`
among the rows `i .. i+d-1`, or 0xFF when there is none. -/
theorem entry_index_loop_scan (info : List PERIPHERAL_INFO_BLOCK) (t : Nat) :
    ∀ (d i inst fuel : Nat), i + d < 2 ^ 32 → type_at info (i + d) = some 0xFF →
      (∀ j, i ≤ j → j < i + d → type_at info j ≠ some 0xFF) → d < fuel →
      entry_index_loop info t fuel i inst =
        .ret ((((List.range' i d).filter fun j => type_at info j = some t)[inst]?).getD 0xFF) := by
  intro d
  induction d with
  | zero =>
    intro i inst fuel _ hterm _ hfuel
    obtain ⟨f, rfl⟩ : ∃ f, fuel = f + 1 := ⟨fuel - 1, by omega⟩
    obtain ⟨blk, hblk, hty⟩ := type_at_eq_some.mp hterm
    simp only [Nat.add_zero] at hblk
    simp [entry_index_loop, hblk, hty]
  | succ d ih =>
    intro i inst fuel hlt hterm hbefore hfuel
    obtain ⟨f, rfl⟩ : ∃ f, fuel = f + 1 := ⟨fuel - 1, by omega⟩
    have hwrap : (i + 1) % 2 ^ 32 = i + 1 := Nat.mod_eq_of_lt (by omega)
    have hnot : type_at info i ≠ some 0xFF := hbefore i (Nat.le_refl i) (by omega)
    have hterm' : type_at info (i + 1 + d) = some 0xFF := by
      have : i + 1 + d = i + (d + 1) := by omega
      rw [this]; exact hterm
    have hbefore' : ∀ j, i + 1 ≤ j → j < i + 1 + d → type_at info j ≠ some 0xFF :=
      fun j h1 h2 => hbefore j (by omega) (by omega)
    have hrec := fun k => ih (i + 1) k f (by omega) hterm' hbefore' (by omega)
    have hin : i < info.length := by
      by_contra hge
      have hnone : info[i + (d + 1)]? = none := List.getElem?_eq_none (by omega)
      simp [type_at, hnone] at hterm
    have hget : info[i]? = some info[i] := List.getElem?_eq_getElem hin
    have hty : type_at info i = some info[i].type := by simp [type_at, hget]
    have hne : info[i].type ≠ 0xFF := by
      intro h; rw [hty, h] at hnot; exact hnot rfl
    rw [entry_index_loop, hget]
    simp only [hne, ne_eq, not_false_eq_true, if_true, hwrap]
    rw [List.range'_succ, List.filter_cons]
    by_cases hmatch : info[i].type = t
    · have hdec : decide (type_at info i = some t) = true := by simp [hty, hmatch]
      rw [if_pos hmatch, hdec, if_pos rfl]
      cases inst with
      | zero => simp
      | succ k =>
        rw [if_neg (Nat.succ_ne_zero k), Nat.add_sub_cancel, hrec k]
        simp
    · have hdec : decide (type_at info i = some t) = false := by simp [hty, hmatch]
      rw [if_neg hmatch, hdec, hrec inst]
      simp

/-- The loop started at row 0 on a table terminated at `n` (below 2^32):
with more than `n` iterations allowed it returns the index of the
`inst`-th row of type `t` before the terminator, or 0xFF when fewer rows of
that type precede the terminator. -/
theorem entry_index_loop_from_zero (info : List PERIPHERAL_INFO_BLOCK) (t n inst fuel : Nat)
    (hn : n < 2 ^ 32) (hterm : TerminatedAt info n) (hfuel : n < fuel) :
    entry_index_loop info t fuel 0 inst = .ret (((instances_of info t n)[inst]?).getD 0xFF) := by
  have h := entry_index_loop_scan info t n 0 inst fuel (by omega)
    (by simpa using hterm.1) (fun j _ hj => hterm.2 j (by omega)) hfuel
  rw [h, instances_of, List.range_eq_range']

/-- The resolver on a created table, when its cursor happens to hold 0 at
entry. -/
theorem get_entry_index_from_zero (tbl : PERIPHERAL_INFO_TABLE) (t n inst fuel : Nat)
    (hn : n < 2 ^ 32) (hterm : TerminatedAt tbl.info n) (hfuel : n < fuel) :
    val_peripheral_get_entry_index (created tbl) fuel 0 t inst =
      .ret (((instances_of tbl.info t n)[inst]?).getD 0xFF) := by
  unfold val_peripheral_get_entry_index
  rw [deref_created]
  exact entry_index_loop_from_zero tbl.info t n inst fuel hn hterm hfuel

/-- Every index listed by `instances_of` is below `n` and refers to a row of
type `t`. -/
theorem mem_instances_of {info : List PERIPHERAL_INFO_BLOCK} {t n j : Nat}
    (h : j ∈ instances_of info t n) : j < n ∧ type_at info j = some t := by
  unfold instances_of at h
  simpa [List.mem_filter, List.mem_range] using h

/-- The resolver entered with cursor 0, found case: when the table is
terminated at `n` and `k` is smaller than the number of rows of type `t`
before the terminator, the result is the index of the `k`-th such row. -/
theorem get_entry_index_found_from_zero (tbl : PERIPHERAL_INFO_TABLE) (t n k fuel : Nat)
    (hn : n < 2 ^ 32) (hterm : TerminatedAt tbl.info n) (hfuel : n < fuel)
    (hk : k < count_of tbl.info t n) :
    ∃ idx, (instances_of tbl.info t n)[k]? = some idx ∧
      val_peripheral_get_entry_index (created tbl) fuel 0 t k = .ret idx := by
  have hk' : k < (instances_of tbl.info t n).length := hk
  refine ⟨(instances_of tbl.info t n)[k], List.getElem?_eq_getElem hk', ?_⟩
  rw [get_entry_index_from_zero tbl t n k fuel hn hterm hfuel, List.getElem?_eq_getElem hk']
  rfl

/-- The resolver entered with cursor 0, not-found case: when `k` is at
least the number of rows of type `t` before the terminator, the result is
the marker 0xFF. -/
theorem get_entry_index_not_found_from_zero (tbl : PERIPHERAL_INFO_TABLE) (t n k fuel : Nat)
    (hn : n < 2 ^ 32) (hterm : TerminatedAt tbl.info n) (hfuel : n < fuel)
    (hk : count_of tbl.info t n ≤ k) :
    val_peripheral_get_entry_index (created tbl) fuel 0 t k = .ret 0xFF := by
  have hk' : (instances_of tbl.info t n).length ≤ k := hk
  rw [get_entry_index_from_zero tbl t n k fuel hn hterm hfuel, List.getElem?_eq_none hk']
  rfl

/-- One case of the switch, entered with cursor 0 on a terminated table: the
case returns the field of the resolved row when the resolver's result
differs from 0xFF, and control falls into the next case otherwise. -/
theorem info_case_from_zero (tbl : PERIPHERAL_INFO_TABLE) (t n k fuel : Nat)
    (field : PERIPHERAL_INFO_BLOCK → Nat) (next : Outcome Nat)
    (hn : n < 2 ^ 32) (hterm : TerminatedAt tbl.info n) (hfuel : n < fuel) :
    info_case (created tbl) fuel 0 t k field next =
      if ((instances_of tbl.info t n)[k]?).getD 0xFF ≠ 0xFF then
        read_info (created tbl) (((instances_of tbl.info t n)[k]?).getD 0xFF) field
      else next := by
  unfold info_case
  rw [get_entry_index_from_zero tbl t n k fuel hn hterm hfuel]
  rfl

/-- One case of the switch, entered with cursor 0, when the requested
instance exists at an index other than 0xFF: the case returns the field of
that row and control never reaches the next case. -/
theorem info_case_found (tbl : PERIPHERAL_INFO_TABLE) (t n k fuel idx : Nat)
    (field : PERIPHERAL_INFO_BLOCK → Nat) (next : Outcome Nat)
    (hn : n < 2 ^ 32) (hterm : TerminatedAt tbl.info n) (hfuel : n < fuel)
    (hidx : (instances_of tbl.info t n)[k]? = some idx) (hne : idx ≠ 0xFF) :
    ∃ blk, tbl.info[idx]? = some blk ∧ blk.type = t ∧
      info_case (created tbl) fuel 0 t k field next = .ret (field blk) := by
  obtain ⟨_, hty⟩ := mem_instances_of (List.getElem?_mem hidx)
  obtain ⟨blk, hblk, hbt⟩ := type_at_eq_some.mp hty
  refine ⟨blk, hblk, hbt, ?_⟩
  unfold info_case
  rw [get_entry_index_from_zero tbl t n k fuel hn hterm hfuel, hidx]
  simp [Outcome.bind, hne, read_info, deref_created, hblk]

/-- One case of the switch, entered with cursor 0, when the requested
instance does not exist: control falls into the next case. -/
theorem info_case_absent (tbl : PERIPHERAL_INFO_TABLE) (t n k fuel : Nat)
    (field : PERIPHERAL_INFO_BLOCK → Nat) (next : Outcome Nat)
    (hn : n < 2 ^ 32) (hterm : TerminatedAt tbl.info n) (hfuel : n < fuel)
    (hk : count_of tbl.info t n ≤ k) :
    info_case (created tbl) fuel 0 t k field next = next := by
  unfold info_case
  rw [get_entry_index_not_found_from_zero tbl t n k fuel hn hterm hfuel hk]
  simp [Outcome.bind]

/-! ## Facts on the sample table with a USB row at index 255 -/

theorem table_usb_at_255_terminated : TerminatedAt table_usb_at_255.info 256 := by
  decide!

theorem table_usb_at_255_usb :
    instances_of table_usb_at_255.info sample_types.PERIPHERAL_TYPE_USB 256 = [255] := by
  decide!

theorem table_usb_at_255_sata :
    instances_of table_usb_at_255.info sample_types.PERIPHERAL_TYPE_SATA 256 = [] := by
  decide!

theorem table_usb_at_255_uart :
    instances_of table_usb_at_255.info sample_types.PERIPHERAL_TYPE_UART 256 = [] := by
  decide!

/-! ## The claims -/

/-- C1 (code bug, evaluation at the failing input). On the table
[USB row, terminator] the terminator is row 1 and instance 0 of USB is
row 0, yet the resolver, entered with the value 1 in its uninitialised
local `i`, reads row 1 first and returns 0xFF instead of 0. -/
theorem C1_found_case_with_stale_cursor :
    TerminatedAt table_one_usb.info 1 ∧
    instances_of table_one_usb.info sample_types.PERIPHERAL_TYPE_USB 1 = [0] ∧
    val_peripheral_get_entry_index (created table_one_usb) 8 1
      sample_types.PERIPHERAL_TYPE_USB 0 = .ret 0xFF := by
  decide

/-- C2 (code bug, evaluation at the failing input). On the empty table
whose terminator is row 0, no USB row precedes the terminator, yet the
resolver, entered with the value 1 in its uninitialised local `i`, starts
behind the terminator, finds the stale row slot 1 and returns 1 instead of
0xFF. -/
theorem C2_not_found_case_with_stale_cursor :
    TerminatedAt table_stale_slot.info 0 ∧
    count_of table_stale_slot.info sample_types.PERIPHERAL_TYPE_USB 0 = 0 ∧
    val_peripheral_get_entry_index (created table_stale_slot) 8 1
      sample_types.PERIPHERAL_TYPE_USB 0 = .ret 1 := by
  decide

/-- C3. On a created table the queries NUM_USB, NUM_SATA and NUM_UART return
the header fields num_usb, num_sata and num_uart, for every instance, every
fuel and every cursor value; two created tables with the same header and
any rows give the same three results, whatever the instances asked. -/
theorem C3_aggregate_counts (ty : PeripheralTypes) (hdr : PERIPHERAL_INFO_HDR)
    (rows rows' : List PERIPHERAL_INFO_BLOCK) (fuel fuel' : Nat) (junk junk' : Nat → Nat)
    (inst inst' : Nat) :
    (val_peripheral_get_info ty
        (val_peripheral_create_info_table ty (some { header := hdr, info := rows })).1
        fuel junk .NUM_USB inst = .ret hdr.num_usb ∧
      val_peripheral_get_info ty
        (val_peripheral_create_info_table ty (some { header := hdr, info := rows })).1
        fuel junk .NUM_SATA inst = .ret hdr.num_sata ∧
      val_peripheral_get_info ty
        (val_peripheral_create_info_table ty (some { header := hdr, info := rows })).1
        fuel junk .NUM_UART inst = .ret hdr.num_uart) ∧
    (val_peripheral_get_info ty (created { header := hdr, info := rows }) fuel junk .NUM_USB inst =
        val_peripheral_get_info ty (created { header := hdr, info := rows' }) fuel' junk'
          .NUM_USB inst' ∧
      val_peripheral_get_info ty (created { header := hdr, info := rows }) fuel junk .NUM_SATA inst =
        val_peripheral_get_info ty (created { header := hdr, info := rows' }) fuel' junk'
          .NUM_SATA inst' ∧
      val_peripheral_get_info ty (created { header := hdr, info := rows }) fuel junk .NUM_UART inst =
        val_peripheral_get_info ty (created { header := hdr, info := rows' }) fuel' junk'
          .NUM_UART inst') :=
  ⟨⟨rfl, rfl, rfl⟩, rfl, rfl, rfl⟩

/-- C4 (counterexample). In the table whose only USB row is row 255 (the
terminator is row 256), instance 0 of USB exists and its base0 is 0x1000,
yet `val_peripheral_get_info(USB_BASE0, 0)` returns 0 even when every scan
starts at row 0: the resolver returns the index 255, which the dispatcher
takes for the not-found marker 0xFF. -/
theorem C4_row_255_reported_absent :
    TerminatedAt table_usb_at_255.info 256 ∧
    instances_of table_usb_at_255.info sample_types.PERIPHERAL_TYPE_USB 256 = [255] ∧
    table_usb_at_255.info[255]?.map (·.base0) = some 0x1000 ∧
    val_peripheral_get_info sample_types (created table_usb_at_255) 300 zero_cursor
      .USB_BASE0 0 = .ret 0 := by
  refine ⟨table_usb_at_255_terminated, table_usb_at_255_usb, by decide!, ?_⟩
  show from_USB_BASE0 sample_types (created table_usb_at_255) 300 zero_cursor 0 = .ret 0
  simp only [from_USB_BASE0, from_USB_FLAGS, from_USB_GSIV, from_USB_BDF, from_SATA_BASE0,
    from_SATA_BASE1, from_SATA_FLAGS, from_SATA_BDF, from_UART_BASE0, from_UART_GSIV,
    from_UART_FLAGS, zero_cursor,
    info_case_from_zero table_usb_at_255 _ 256 0 300 _ _ (by decide)
      table_usb_at_255_terminated (by decide),
    table_usb_at_255_usb, table_usb_at_255_sata, table_usb_at_255_uart]
  rfl

/-- C4 (amended). For every created table terminated at an index `n` below
2^32, with more than `n` loop iterations allowed and every scan of the
resolver starting at row 0: for each per-peripheral kind other than
SATA_BDF, when the `k`-th row of the kind's owning type exists and its
index is not 0xFF, `val_peripheral_get_info(kind, k)` returns the field the
kind names, read from that row. -/
theorem C4_in_range_field (ty : PeripheralTypes) (tbl : PERIPHERAL_INFO_TABLE)
    (n fuel k idx t : Nat) (kind : PERIPHERAL_INFO_e) (f : PERIPHERAL_INFO_BLOCK → Nat)
    (hn : n < 2 ^ 32) (hterm : TerminatedAt tbl.info n) (hfuel : n < fuel)
    (hkind : kind ≠ .SATA_BDF) (ht : owner_type ty kind = some t)
    (hf : named_field kind = some f)
    (hidx : (instances_of tbl.info t n)[k]? = some idx) (hne : idx ≠ 0xFF) :
    ∃ blk, tbl.info[idx]? = some blk ∧ blk.type = t ∧
      val_peripheral_get_info ty (created tbl) fuel zero_cursor kind k = .ret (f blk) := by
  have key := fun (next : Outcome Nat) =>
    info_case_found tbl t n k fuel idx f next hn hterm hfuel hidx hne
  cases kind <;>
    simp only [owner_type, named_field, Option.some.injEq, reduceCtorEq] at ht hf <;>
    first
      | exact absurd rfl hkind
      | (subst ht; subst hf; exact key _)

/-- C4 (witness). The amended claim at the table [SATA row, USB row,
terminator], terminated at row 2: instance 0 of USB is row 1, and USB_GSIV
of instance 0 is the irq of that row. -/
theorem C4_in_range_field_witness :
    (2 < 2 ^ 32 ∧ TerminatedAt table_sata_usb.info 2 ∧ 2 < 3 ∧
      PERIPHERAL_INFO_e.USB_GSIV ≠ .SATA_BDF ∧
      owner_type sample_types .USB_GSIV = some 0x2000 ∧
      (instances_of table_sata_usb.info 0x2000 2)[0]? = some 1 ∧ 1 ≠ 0xFF) ∧
    ∃ blk, table_sata_usb.info[1]? = some blk ∧ blk.type = 0x2000 ∧
      val_peripheral_get_info sample_types (created table_sata_usb) 3 zero_cursor
        .USB_GSIV 0 = .ret (blk.irq) :=
  ⟨by decide,
    C4_in_range_field sample_types table_sata_usb 2 3 0 1 0x2000 .USB_GSIV (·.irq)
      (by decide) (by decide) (by decide) (by decide) rfl rfl (by decide) (by decide)⟩

/-- C5 (code bug, evaluation at the failing input). On the table
[SATA row, terminator] there is no USB row, so instance 0 is out of range
for USB_BASE0; with every scan starting at row 0 the dispatcher falls
through the USB cases into `case SATA_BASE0` and returns the base0 0x3000
of the SATA row instead of 0. -/
theorem C5_out_of_range_falls_through :
    TerminatedAt table_one_sata.info 1 ∧
    count_of table_one_sata.info sample_types.PERIPHERAL_TYPE_USB 1 = 0 ∧
    val_peripheral_get_info sample_types (created table_one_sata) 8 zero_cursor
      .USB_BASE0 0 = .ret 0x3000 := by
  decide

/-- C6 (code bug, evaluation at the failing input). On the table
[SATA row (bdf 0x100), USB row (bdf 0x200), terminator], with every scan
starting at row 0, `val_peripheral_get_info(SATA_BDF, 0)` returns 0x200,
the bdf of USB instance 0, and not the bdf 0x100 of SATA instance 0. -/
theorem C6_sata_bdf_reads_usb_row :
    TerminatedAt table_sata_usb.info 2 ∧
    instances_of table_sata_usb.info sample_types.PERIPHERAL_TYPE_SATA 2 = [0] ∧
    table_sata_usb.info[0]?.map (·.bdf) = some 0x100 ∧
    instances_of table_sata_usb.info sample_types.PERIPHERAL_TYPE_USB 2 = [1] ∧
    table_sata_usb.info[1]?.map (·.bdf) = some 0x200 ∧
    val_peripheral_get_info sample_types (created table_sata_usb) 8 zero_cursor
      .SATA_BDF 0 = .ret 0x200 := by
  decide

/-- C7. With a null active-table reference, `val_peripheral_get_info` returns
0 for every kind (aggregate, per-peripheral, unrecognized) and every
instance. The result is a returned 0 and never a fault, for every fuel
(also none), every cursor value and whether or not memory was released:
reading through the reference would be a fault, so nothing is read. The
state at program start, before any creation, is such a state. -/
theorem C7_query_on_null_reference (ty : PeripheralTypes) (released : Bool) (fuel : Nat)
    (junk : Nat → Nat) (kind : PERIPHERAL_INFO_e) (inst : Nat) :
    val_peripheral_get_info ty { g_peripheral_info_table := none, released := released }
        fuel junk kind inst = .ret 0 ∧
    val_peripheral_get_info ty ValState.initial fuel junk kind inst = .ret 0 :=
  ⟨rfl, rfl⟩

/-- C9. When `g_skip_test_num` equals `AVS_PER_TEST_NUM_BASE`, for every
level, num_pe, checks and system state, `val_peripheral_execute_tests`
returns `AVS_STATUS_SKIP`, invokes no check (the sequence of check
invocations is empty, the only event is the notice) and leaves the system
state untouched. -/
theorem C9_skip_switch {W : Type} (c : AvsConstants) (chk : Checks W) (level num_pe : Nat)
    (w : W) :
    (val_peripheral_execute_tests c chk c.AVS_PER_TEST_NUM_BASE level num_pe w).status =
        c.AVS_STATUS_SKIP ∧
    check_invocations
        (val_peripheral_execute_tests c chk c.AVS_PER_TEST_NUM_BASE level num_pe w).events = [] ∧
    (val_peripheral_execute_tests c chk c.AVS_PER_TEST_NUM_BASE level num_pe w).events =
        [.print .skipping_all_peripheral_tests 0] ∧
    (val_peripheral_execute_tests c chk c.AVS_PER_TEST_NUM_BASE level num_pe w).world = w := by
  simp [val_peripheral_execute_tests, check_invocations]

/-- C10. When `g_skip_test_num` differs from `AVS_PER_TEST_NUM_BASE`, for
every level, num_pe and system state, if the four checks, run in the order
d001, d002, d003, m001 each on the state its predecessor left, return the
32-bit statuses s1, s2, s3, s4, then `val_peripheral_execute_tests` returns
exactly `s1 | s2 | s3 | s4`, itself a 32-bit value. -/
theorem C10_status_is_bitwise_or {W : Type} (c : AvsConstants) (chk : Checks W)
    (g_skip_test_num level num_pe : Nat) (w w1 w2 w3 w4 : W) (s1 s2 s3 s4 : Nat)
    (hskip : g_skip_test_num ≠ c.AVS_PER_TEST_NUM_BASE)
    (h1 : chk.d001_entry num_pe w = (s1, w1)) (h2 : chk.d002_entry num_pe w1 = (s2, w2))
    (h3 : chk.d003_entry num_pe w2 = (s3, w3)) (h4 : chk.m001_entry num_pe w3 = (s4, w4))
    (b1 : s1 < 2 ^ 32) (b2 : s2 < 2 ^ 32) (b3 : s3 < 2 ^ 32) (b4 : s4 < 2 ^ 32) :
    (val_peripheral_execute_tests c chk g_skip_test_num level num_pe w).status =
        s1 ||| s2 ||| s3 ||| s4 ∧
    (val_peripheral_execute_tests c chk g_skip_test_num level num_pe w).status < 2 ^ 32 := by
  have hst : (val_peripheral_execute_tests c chk g_skip_test_num level num_pe w).status =
      s1 ||| s2 ||| s3 ||| s4 := by
    unfold val_peripheral_execute_tests
    simp only [if_neg hskip, h1, h2, h3, h4]
    split <;> rfl
  refine ⟨hst, ?_⟩
  rw [hst]
  exact Nat.or_lt_two_pow (Nat.or_lt_two_pow (Nat.or_lt_two_pow b1 b2) b3) b4

/-- C10 (witness). With the skip switch at 0 and the sample checks, which
return 0x0, 0x10000000, 0x0 and 0x4, the run returns their bitwise OR. -/
theorem C10_status_is_bitwise_or_witness :
    (val_peripheral_execute_tests sample_constants sample_checks 0 1 4 0).status =
        0x0 ||| 0x10000000 ||| 0x0 ||| 0x4 ∧
    (val_peripheral_execute_tests sample_constants sample_checks 0 1 4 0).status < 2 ^ 32 :=
  C10_status_is_bitwise_or sample_constants sample_checks 0 1 4 0 1 2 3 4
    0x0 0x10000000 0x0 0x4 (by decide) rfl rfl rfl rfl
    (by decide) (by decide) (by decide) (by decide)

/-! ## Lemmas on the sequencer -/

/-- OR-ing a status code into FAIL, on either side, leaves FAIL when FAIL
dominates. -/
theorem or_fail_of_code {c : AvsConstants} (hdom : fail_dominates c) {s : Nat}
    (hs : is_status_code c s) :
    s ||| c.AVS_STATUS_FAIL = c.AVS_STATUS_FAIL ∧ c.AVS_STATUS_FAIL ||| s = c.AVS_STATUS_FAIL := by
  have key : s ||| c.AVS_STATUS_FAIL = c.AVS_STATUS_FAIL := by
    rcases hs with h | h | h
    · rw [h]; exact hdom.1
    · rw [h]; exact Nat.or_self _
    · rw [h]; exact hdom.2
  exact ⟨key, by rw [Nat.lor_comm]; exact key⟩

/-- The OR of four status codes of which one is FAIL is FAIL, when FAIL
dominates. -/
theorem or_four_fail {c : AvsConstants} (hdom : fail_dominates c) {s1 s2 s3 s4 : Nat}
    (c1 : is_status_code c s1) (c2 : is_status_code c s2) (c3 : is_status_code c s3)
    (c4 : is_status_code c s4)
    (hfail : s1 = c.AVS_STATUS_FAIL ∨ s2 = c.AVS_STATUS_FAIL ∨ s3 = c.AVS_STATUS_FAIL ∨
      s4 = c.AVS_STATUS_FAIL) :
    s1 ||| s2 ||| s3 ||| s4 = c.AVS_STATUS_FAIL := by
  have a1 := or_fail_of_code hdom c1
  have a2 := or_fail_of_code hdom c2
  have a3 := or_fail_of_code hdom c3
  have a4 := or_fail_of_code hdom c4
  rcases hfail with h | h | h | h
  · rw [h, a2.2, a3.2, a4.2]
  · rw [h, a1.1, a3.2, a4.2]
  · rw [h, Nat.lor_assoc s1 s2, a2.1, a1.1, a4.2]
  · rw [h, Nat.lor_assoc (s1 ||| s2) s3, Nat.lor_assoc s1 s2, a3.1, a2.1, a1.1]

/-! ## Further lemmas on the resolver and the dispatcher -/

/-- Rows below the cut are the same in the table and in its first `m` rows. -/
theorem type_at_take {info : List PERIPHERAL_INFO_BLOCK} {m j : Nat} (h : j < m) :
    type_at (info.take m) j = type_at info j := by
  unfold type_at
  rw [List.getElem?_take_of_lt h]

/-- A table with a row of type 0xFF at index `n` is terminated at some
index `m` not above `n`, the first such row. -/
theorem first_terminator {info : List PERIPHERAL_INFO_BLOCK} {n : Nat}
    (hrow : type_at info n = some 0xFF) : ∃ m, m ≤ n ∧ TerminatedAt info m := by
  have hex : ∃ m, type_at info m = some 0xFF := ⟨n, hrow⟩
  exact ⟨Nat.find hex, Nat.find_min' hex hrow, Nat.find_spec hex,
    fun j hj => Nat.find_min hex hj⟩

/-- The resolver entered with cursor 0 on a table with a row of type 0xFF at
index `n` (below 2^32): it returns a value within `n + 1` iterations, and it
returns the same value on the region cut after row `n`, where a read of a
row above `n` would be a fault; so no row above `n` is read. -/
theorem get_entry_index_terminates_from_zero (tbl : PERIPHERAL_INFO_TABLE) (t n k fuel : Nat)
    (hn : n < 2 ^ 32) (hrow : type_at tbl.info n = some 0xFF) (hfuel : n < fuel) :
    ∃ v, val_peripheral_get_entry_index (created tbl) fuel 0 t k = .ret v ∧
      val_peripheral_get_entry_index
        (created { header := tbl.header, info := tbl.info.take (n + 1) }) (n + 1) 0 t k =
          .ret v := by
  obtain ⟨m, hmn, hterm⟩ := first_terminator hrow
  have hterm' : TerminatedAt (tbl.info.take (n + 1)) m :=
    ⟨by rw [type_at_take (by omega)]; exact hterm.1,
     fun j hj => by rw [type_at_take (by omega)]; exact hterm.2 j hj⟩
  have hinst : instances_of (tbl.info.take (n + 1)) t m = instances_of tbl.info t m := by
    unfold instances_of
    apply List.filter_congr
    intro j hj
    rw [type_at_take (by have := List.mem_range.mp hj; omega)]
  refine ⟨((instances_of tbl.info t m)[k]?).getD 0xFF, ?_, ?_⟩
  · exact get_entry_index_from_zero tbl t m k fuel (by omega) hterm (by omega)
  · have h := get_entry_index_from_zero
      { header := tbl.header, info := tbl.info.take (n + 1) } t m k (n + 1)
      (by omega) hterm' (by omega)
    rw [h]
    show Outcome.ret (((instances_of (tbl.info.take (n + 1)) t m)[k]?).getD 0xFF) = _
    rw [hinst]

/-- The dispatcher on a created, terminated table with every scan starting
at row 0: when the instance `k` is out of range for USB, SATA and UART at
once, every per-peripheral kind gives 0. -/
theorem get_info_all_absent_from_zero (ty : PeripheralTypes) (tbl : PERIPHERAL_INFO_TABLE)
    (n fuel k : Nat) (kind : PERIPHERAL_INFO_e)
    (hn : n < 2 ^ 32) (hterm : TerminatedAt tbl.info n) (hfuel : n < fuel)
    (husb : count_of tbl.info ty.PERIPHERAL_TYPE_USB n ≤ k)
    (hsata : count_of tbl.info ty.PERIPHERAL_TYPE_SATA n ≤ k)
    (huart : count_of tbl.info ty.PERIPHERAL_TYPE_UART n ≤ k)
    (hkind : owner_type ty kind ≠ none) :
    val_peripheral_get_info ty (created tbl) fuel zero_cursor kind k = .ret 0 := by
  have aU := fun (field : PERIPHERAL_INFO_BLOCK → Nat) (next : Outcome Nat) =>
    info_case_absent tbl ty.PERIPHERAL_TYPE_USB n k fuel field next hn hterm hfuel husb
  have aS := fun (field : PERIPHERAL_INFO_BLOCK → Nat) (next : Outcome Nat) =>
    info_case_absent tbl ty.PERIPHERAL_TYPE_SATA n k fuel field next hn hterm hfuel hsata
  have aA := fun (field : PERIPHERAL_INFO_BLOCK → Nat) (next : Outcome Nat) =>
    info_case_absent tbl ty.PERIPHERAL_TYPE_UART n k fuel field next hn hterm hfuel huart
  have e10 : from_UART_FLAGS ty (created tbl) fuel zero_cursor k = .ret 0 := aA _ _
  have e9 : from_UART_GSIV ty (created tbl) fuel zero_cursor k = .ret 0 := (aA _ _).trans e10
  have e8 : from_UART_BASE0 ty (created tbl) fuel zero_cursor k = .ret 0 := (aA _ _).trans e9
  have e7 : from_SATA_BDF ty (created tbl) fuel zero_cursor k = .ret 0 := (aU _ _).trans e8
  have e6 : from_SATA_FLAGS ty (created tbl) fuel zero_cursor k = .ret 0 := (aS _ _).trans e7
  have e5 : from_SATA_BASE1 ty (created tbl) fuel zero_cursor k = .ret 0 := (aS _ _).trans e6
  have e4 : from_SATA_BASE0 ty (created tbl) fuel zero_cursor k = .ret 0 := (aS _ _).trans e5
  have e3 : from_USB_BDF ty (created tbl) fuel zero_cursor k = .ret 0 := (aU _ _).trans e4
  have e2 : from_USB_GSIV ty (created tbl) fuel zero_cursor k = .ret 0 := (aU _ _).trans e3
  have e1 : from_USB_FLAGS ty (created tbl) fuel zero_cursor k = .ret 0 := (aU _ _).trans e2
  have e0 : from_USB_BASE0 ty (created tbl) fuel zero_cursor k = .ret 0 := (aU _ _).trans e1
  cases kind with
  | NUM_USB => exact absurd rfl hkind
  | NUM_SATA => exact absurd rfl hkind
  | NUM_UART => exact absurd rfl hkind
  | unrecognized v => exact absurd rfl hkind
  | USB_BASE0 => exact e0
  | USB_FLAGS => exact e1
  | USB_GSIV => exact e2
  | USB_BDF => exact e3
  | SATA_BASE0 => exact e4
  | SATA_BASE1 => exact e5
  | SATA_FLAGS => exact e6
  | SATA_BDF => exact e7
  | UART_BASE0 => exact e8
  | UART_GSIV => exact e9
  | UART_FLAGS => exact e10

/-- The end-to-end scenario when every scan of the resolver starts at row 0:
the five values are the ones the scenario lists. -/
theorem scenario_from_zero :
    val_peripheral_get_entry_index (created scenario_table) 3 0
      sample_types.PERIPHERAL_TYPE_USB 0 = .ret 0 ∧
    val_peripheral_get_entry_index (created scenario_table) 3 0
      sample_types.PERIPHERAL_TYPE_USB 1 = .ret 0xFF ∧
    val_peripheral_get_info sample_types (created scenario_table) 3 zero_cursor
      .USB_BASE0 0 = .ret 0x1000 ∧
    val_peripheral_get_info sample_types (created scenario_table) 3 zero_cursor
      .UART_GSIV 0 = .ret 7 ∧
    val_peripheral_get_info sample_types (created scenario_table) 3 zero_cursor
      .NUM_SATA 0 = .ret 0 := by
  decide

/-! ## The claims, continued -/

/-- C11. With the skip switch unset and status encodings in which FAIL
dominates PASS and SKIP under bitwise OR: whenever the four checks return
status codes among PASS, FAIL, SKIP and at least one of them returns FAIL,
`val_peripheral_execute_tests` returns exactly `AVS_STATUS_FAIL`, and the
run takes the failure-notice branch (the last event is the failure notice
after the four check invocations). -/
theorem C11_fail_dominates {W : Type} (c : AvsConstants) (chk : Checks W)
    (g_skip_test_num level num_pe : Nat) (w w1 w2 w3 w4 : W) (s1 s2 s3 s4 : Nat)
    (hdom : fail_dominates c)
    (hskip : g_skip_test_num ≠ c.AVS_PER_TEST_NUM_BASE)
    (h1 : chk.d001_entry num_pe w = (s1, w1)) (h2 : chk.d002_entry num_pe w1 = (s2, w2))
    (h3 : chk.d003_entry num_pe w2 = (s3, w3)) (h4 : chk.m001_entry num_pe w3 = (s4, w4))
    (c1 : is_status_code c s1) (c2 : is_status_code c s2) (c3 : is_status_code c s3)
    (c4 : is_status_code c s4)
    (hfail : s1 = c.AVS_STATUS_FAIL ∨ s2 = c.AVS_STATUS_FAIL ∨ s3 = c.AVS_STATUS_FAIL ∨
      s4 = c.AVS_STATUS_FAIL) :
    (val_peripheral_execute_tests c chk g_skip_test_num level num_pe w).status =
        c.AVS_STATUS_FAIL ∧
    (val_peripheral_execute_tests c chk g_skip_test_num level num_pe w).events =
        [.check .d001_entry num_pe, .check .d002_entry num_pe, .check .d003_entry num_pe,
         .check .m001_entry num_pe, .print .peripheral_tests_failed c.AVS_STATUS_FAIL] := by
  have hor := or_four_fail hdom c1 c2 c3 c4 hfail
  unfold val_peripheral_execute_tests
  simp only [if_neg hskip, h1, h2, h3, h4, hor, if_true]
  simp

/-- C11 (witness). With PASS = 0, FAIL = 0x90000000, SKIP = 0x10000000 and
checks returning PASS, SKIP, FAIL, PASS, the run returns FAIL and ends with
the failure notice. -/
theorem C11_fail_dominates_witness :
    (fail_dominates sample_constants ∧ (0 : Nat) ≠ sample_constants.AVS_PER_TEST_NUM_BASE ∧
      is_status_code sample_constants 0x0 ∧ is_status_code sample_constants 0x10000000 ∧
      is_status_code sample_constants 0x90000000) ∧
    (val_peripheral_execute_tests sample_constants checks_third_fails 0 1 4 0).status =
        sample_constants.AVS_STATUS_FAIL ∧
    (val_peripheral_execute_tests sample_constants checks_third_fails 0 1 4 0).events =
        [.check .d001_entry 4, .check .d002_entry 4, .check .d003_entry 4,
         .check .m001_entry 4, .print .peripheral_tests_failed sample_constants.AVS_STATUS_FAIL] :=
  ⟨by decide,
    C11_fail_dominates sample_constants checks_third_fails 0 1 4 0 1 2 3 4
      0x0 0x10000000 0x90000000 0x0 (by decide) (by decide) rfl rfl rfl rfl
      (by decide) (by decide) (by decide) (by decide) (by decide)⟩

/-- C12. For every state of the registry, in particular for every created
table, every instance, fuel and cursor value: when `info_type` is none of
the fourteen kinds that have a case label, `val_peripheral_get_info`
returns 0. -/
theorem C12_unrecognized_kind (ty : PeripheralTypes) (s : ValState) (fuel : Nat)
    (junk : Nat → Nat) (kind : PERIPHERAL_INFO_e) (inst : Nat)
    (hkind : kind ∉ recognized_kinds) :
    val_peripheral_get_info ty s fuel junk kind inst = .ret 0 := by
  cases kind with
  | unrecognized v =>
    unfold val_peripheral_get_info
    cases s.g_peripheral_info_table <;> rfl
  | _ => exact absurd (by decide) hkind

/-- C12 (witness). On the created scenario table the kind of value 99 has no
case label and the query returns 0. -/
theorem C12_unrecognized_kind_witness :
    PERIPHERAL_INFO_e.unrecognized 99 ∉ recognized_kinds ∧
    val_peripheral_get_info sample_types (created scenario_table) 0 zero_cursor
      (.unrecognized 99) 3 = .ret 0 :=
  ⟨by decide,
    C12_unrecognized_kind sample_types (created scenario_table) 0 zero_cursor
      (.unrecognized 99) 3 (by decide)⟩

/-- C13. With the skip switch unset, whatever the checks return, one call of
`val_peripheral_execute_tests(level, num_pe)` invokes exactly the four
checks d001_entry, d002_entry, d003_entry, m001_entry, once each, in that
order, each with the argument `num_pe`; each check runs on the system state
its predecessor left, and the state after the run is the one m001_entry
leaves. -/
theorem C13_invocation_order {W : Type} (c : AvsConstants) (chk : Checks W)
    (g_skip_test_num level num_pe : Nat) (w : W)
    (hskip : g_skip_test_num ≠ c.AVS_PER_TEST_NUM_BASE) :
    check_invocations
        (val_peripheral_execute_tests c chk g_skip_test_num level num_pe w).events =
      [(.d001_entry, num_pe), (.d002_entry, num_pe), (.d003_entry, num_pe),
       (.m001_entry, num_pe)] ∧
    (val_peripheral_execute_tests c chk g_skip_test_num level num_pe w).world =
      (chk.m001_entry num_pe
        (chk.d003_entry num_pe
          (chk.d002_entry num_pe (chk.d001_entry num_pe w).2).2).2).2 := by
  unfold val_peripheral_execute_tests
  simp only [if_neg hskip]
  split <;> exact ⟨rfl, rfl⟩

/-- C13 (witness). With checks of which the third returns FAIL, the fourth
check still runs: four invocations in order, and the count of checks run
ends at 4. -/
theorem C13_invocation_order_witness :
    (0 : Nat) ≠ sample_constants.AVS_PER_TEST_NUM_BASE ∧
    check_invocations
        (val_peripheral_execute_tests sample_constants checks_third_fails 0 1 4 0).events =
      [(.d001_entry, 4), (.d002_entry, 4), (.d003_entry, 4), (.m001_entry, 4)] ∧
    (val_peripheral_execute_tests sample_constants checks_third_fails 0 1 4 0).world =
      (checks_third_fails.m001_entry 4
        (checks_third_fails.d003_entry 4
          (checks_third_fails.d002_entry 4 (checks_third_fails.d001_entry 4 0).2).2).2).2 :=
  ⟨by decide, C13_invocation_order sample_constants checks_third_fails 0 1 4 0 (by decide)⟩

/-- C20. For every num_pe, every value of the skip switch, every four checks
and every system state, two runs that differ only in `level` are the same
run: the same events (so the same checks with the same arguments), the same
returned status and the same final system state. -/
theorem C20_level_is_ignored {W : Type} (c : AvsConstants) (chk : Checks W)
    (g_skip_test_num level1 level2 num_pe : Nat) (w : W) :
    val_peripheral_execute_tests c chk g_skip_test_num level1 num_pe w =
      val_peripheral_execute_tests c chk g_skip_test_num level2 num_pe w ∧
    check_invocations
        (val_peripheral_execute_tests c chk g_skip_test_num level1 num_pe w).events =
      check_invocations
        (val_peripheral_execute_tests c chk g_skip_test_num level2 num_pe w).events ∧
    (val_peripheral_execute_tests c chk g_skip_test_num level1 num_pe w).status =
      (val_peripheral_execute_tests c chk g_skip_test_num level2 num_pe w).status :=
  ⟨rfl, rfl, rfl⟩

/-- C14 (code bug, evaluation at the failing input). On the scenario table
(terminated at row 2), when the uninitialised local `i` of the resolver
holds 2 at entry, the scan starts on the terminator: the resolver returns
0xFF for (USB, 0) instead of 0, and the queries USB_BASE0 and UART_GSIV of
instance 0 return 0 instead of 0x1000 and 7. -/
theorem C14_scenario_with_stale_cursor :
    TerminatedAt scenario_table.info 2 ∧
    instances_of scenario_table.info sample_types.PERIPHERAL_TYPE_USB 2 = [0] ∧
    val_peripheral_get_entry_index (created scenario_table) 8 2
      sample_types.PERIPHERAL_TYPE_USB 0 = .ret 0xFF ∧
    val_peripheral_get_info sample_types (created scenario_table) 8 (cursor_at 2)
      .USB_BASE0 0 = .ret 0 ∧
    val_peripheral_get_info sample_types (created scenario_table) 8 (cursor_at 2)
      .UART_GSIV 0 = .ret 0 := by
  decide

/-- The resolver does not check the active-table reference: with a null
reference it dereferences it, for every type, instance, fuel and cursor
value. The dispatcher, on the same state, returns 0 before any call of the
resolver. -/
theorem null_check_is_in_dispatcher (ty : PeripheralTypes) (released : Bool)
    (fuel i type inst : Nat) (junk : Nat → Nat) (kind : PERIPHERAL_INFO_e) :
    val_peripheral_get_entry_index
        { g_peripheral_info_table := none, released := released } fuel i type inst = .fault ∧
    val_peripheral_get_info ty
        { g_peripheral_info_table := none, released := released } fuel junk kind inst = .ret 0 :=
  ⟨rfl, rfl⟩

/-- C16 (code bug, evaluation at the failing input). On the table
[USB row, terminator] the result of the resolver for (USB, 0) depends on
the value its local `i` holds at entry: 0 when that value is 0, the marker
0xFF when it is 1, a read outside the table when it is 2. -/
theorem C16_result_depends_on_cursor :
    val_peripheral_get_entry_index (created table_one_usb) 8 0
      sample_types.PERIPHERAL_TYPE_USB 0 = .ret 0 ∧
    val_peripheral_get_entry_index (created table_one_usb) 8 1
      sample_types.PERIPHERAL_TYPE_USB 0 = .ret 0xFF ∧
    val_peripheral_get_entry_index (created table_one_usb) 8 2
      sample_types.PERIPHERAL_TYPE_USB 0 = .fault := by
  decide

/-- C17 (counterexample). In the table whose only USB row is row 255 (the
terminator is row 256), instance 0 of USB exists, yet the resolver, its
scan starting at row 0, returns 255, which is the marker 0xFF. -/
theorem C17_row_255_is_the_marker :
    TerminatedAt table_usb_at_255.info 256 ∧
    (instances_of table_usb_at_255.info sample_types.PERIPHERAL_TYPE_USB 256)[0]? = some 255 ∧
    val_peripheral_get_entry_index (created table_usb_at_255) 300 0
      sample_types.PERIPHERAL_TYPE_USB 0 = .ret 0xFF := by
  refine ⟨table_usb_at_255_terminated, by rw [table_usb_at_255_usb]; rfl, ?_⟩
  rw [get_entry_index_from_zero table_usb_at_255 _ 256 0 300 (by decide)
    table_usb_at_255_terminated (by decide), table_usb_at_255_usb]
  rfl

/-- C17 (amended). For every created table terminated at an index `n` below
2^32, with more than `n` loop iterations allowed and the scan starting at
row 0: when the `k`-th row of type `t` exists the resolver returns its
index, and the resolver returns 0xFF if and only if the requested instance
is absent or is the row at index 255. -/
theorem C17_marker_iff_absent_or_row_255 (tbl : PERIPHERAL_INFO_TABLE) (t n k fuel : Nat)
    (hn : n < 2 ^ 32) (hterm : TerminatedAt tbl.info n) (hfuel : n < fuel) :
    (∀ idx, (instances_of tbl.info t n)[k]? = some idx →
      val_peripheral_get_entry_index (created tbl) fuel 0 t k = .ret idx) ∧
    (val_peripheral_get_entry_index (created tbl) fuel 0 t k = .ret 0xFF ↔
      ((instances_of tbl.info t n)[k]? = none ∨
        (instances_of tbl.info t n)[k]? = some 0xFF)) := by
  rw [get_entry_index_from_zero tbl t n k fuel hn hterm hfuel]
  cases h : (instances_of tbl.info t n)[k]? with
  | none => simp
  | some idx => simp

/-- C17 (witness). On the table [SATA row, USB row, terminator] instance 0
of USB is row 1: the resolver returns 1, and it returns 0xFF exactly when
the instance is absent or at row 255, which is not the case here. -/
theorem C17_marker_iff_absent_or_row_255_witness :
    ((2 : Nat) < 2 ^ 32 ∧ TerminatedAt table_sata_usb.info 2 ∧ (2 : Nat) < 3) ∧
    (∀ idx, (instances_of table_sata_usb.info 0x2000 2)[0]? = some idx →
      val_peripheral_get_entry_index (created table_sata_usb) 3 0 0x2000 0 = .ret idx) ∧
    (val_peripheral_get_entry_index (created table_sata_usb) 3 0 0x2000 0 = .ret 0xFF ↔
      ((instances_of table_sata_usb.info 0x2000 2)[0]? = none ∨
        (instances_of table_sata_usb.info 0x2000 2)[0]? = some 0xFF)) :=
  ⟨by decide,
    C17_marker_iff_absent_or_row_255 table_sata_usb 0x2000 2 0 3
      (by decide) (by decide) (by decide)⟩

/-- C18 (code bug, evaluation at the failing input). On the table
[USB row, terminator], whose terminator is row 1, the resolver entered
with the value 2 in its uninitialised local `i` reads row 2, above the
terminator and outside the table, and returns no value. -/
theorem C18_scan_starts_above_terminator :
    type_at table_one_usb.info 1 = some 0xFF ∧
    table_one_usb.info.length = 2 ∧
    val_peripheral_get_entry_index (created table_one_usb) 8 2
      sample_types.PERIPHERAL_TYPE_SATA 0 = .fault := by
  decide

/-- C19 (code bug, evaluation at the failing input). On the empty table
whose terminator is row 0 and whose next row slot holds stale bytes of a
USB row, instance 0 is out of range for USB, SATA and UART at once, yet
with the value 1 in the resolver's uninitialised local `i` the query
USB_BASE0 of instance 0 returns 0x1000, read from the stale slot, and not
0. -/
theorem C19_all_absent_with_stale_cursor :
    TerminatedAt table_stale_slot.info 0 ∧
    count_of table_stale_slot.info sample_types.PERIPHERAL_TYPE_USB 0 = 0 ∧
    count_of table_stale_slot.info sample_types.PERIPHERAL_TYPE_SATA 0 = 0 ∧
    count_of table_stale_slot.info sample_types.PERIPHERAL_TYPE_UART 0 = 0 ∧
    val_peripheral_get_info sample_types (created table_stale_slot) 8 (cursor_at 1)
      .USB_BASE0 0 = .ret 0x1000 := by
  decide

end SbsaAcs
